import Mathlib

/-!
# Verification of `bevy_basic_portals` portal update logic

Shallow embedding of the portal-camera transform solver, frustum derivation,
resize logic and per-frame orchestration of the `bevy_basic_portals` crate
(`src/portals/update.rs`, `src/portals/despawn.rs`, `src/portals/api.rs`,
`src/portals/create.rs`), together with the pieces of its `glam`/`bevy` maths
dependencies that those functions call
(`Vec3`/`Mat3`/`Mat4`/`Affine3A` arithmetic, `GlobalTransform`,
`Transform::look_to`, `HalfSpace`, `Frustum::from_clip_from_world_custom_far`).

Modelling conventions:
* `f32` scalars are modelled by exact rationals `ℚ`; the arithmetic of the
  source is translated operation by operation.
* The only `f32` operation with no exact rational counterpart is the inverse
  length `v.length_recip()` (used by `normalize`, `Dir3` construction and
  `HalfSpace::new`).  It is modelled by an explicit function parameter
  `invLen : Vec3 → ℚ`; theorems that depend on it assume exactly the
  algebraic facts that hold of the real inverse length at the vectors
  actually involved (for instance that it is `1` on unit vectors).
* Quaternions are modelled by the rotation matrices they act by: a `Transform`
  stores its rotation as a `Mat3`, `Quat::from_mat3` is the matrix itself and
  `quat * v` is `Mat3.mulVec`.  This identifies `q` and `-q`, which act
  identically on every vector.
* Bevy ECS queries are modelled by association lists from entity ids (`Nat`)
  to the component data the query extracts; `Commands` become an explicit
  action list, and a Rust `panic!`/`unwrap` failure is the `Except.error`
  case of the result.
-/

namespace BasicPortals

/-- 3-component vector of rationals, modelling `glam::Vec3`/`Vec3A`. -/
structure Vec3 where
  x : ℚ
  y : ℚ
  z : ℚ
  deriving DecidableEq, Repr

/-- 4-component vector, modelling `glam::Vec4`. -/
structure Vec4 where
  x : ℚ
  y : ℚ
  z : ℚ
  w : ℚ
  deriving DecidableEq, Repr

namespace Vec3

def add (a b : Vec3) : Vec3 := ⟨a.x + b.x, a.y + b.y, a.z + b.z⟩

def sub (a b : Vec3) : Vec3 := ⟨a.x - b.x, a.y - b.y, a.z - b.z⟩

def neg (a : Vec3) : Vec3 := ⟨-a.x, -a.y, -a.z⟩

def smul (q : ℚ) (a : Vec3) : Vec3 := ⟨q * a.x, q * a.y, q * a.z⟩

instance : Add Vec3 := ⟨Vec3.add⟩

instance : Sub Vec3 := ⟨Vec3.sub⟩

instance : Neg Vec3 := ⟨Vec3.neg⟩

instance : SMul ℚ Vec3 := ⟨Vec3.smul⟩

instance : Zero Vec3 := ⟨⟨0, 0, 0⟩⟩

/-- `Vec3::dot`. -/
def dot (a b : Vec3) : ℚ := a.x * b.x + a.y * b.y + a.z * b.z

/-- `Vec3::cross`. -/
def cross (a b : Vec3) : Vec3 :=
  ⟨a.y * b.z - a.z * b.y, a.z * b.x - a.x * b.z, a.x * b.y - a.y * b.x⟩

/-- `Vec3::project_onto`: `other * (self.dot(other) / other.length_squared())`. -/
def projectOnto (v n : Vec3) : Vec3 := (v.dot n / n.dot n) • n

/-- `Vec3::extend`. -/
def extend (v : Vec3) (w : ℚ) : Vec4 := ⟨v.x, v.y, v.z, w⟩

end Vec3

namespace Vec4

def add (a b : Vec4) : Vec4 := ⟨a.x + b.x, a.y + b.y, a.z + b.z, a.w + b.w⟩

def sub (a b : Vec4) : Vec4 := ⟨a.x - b.x, a.y - b.y, a.z - b.z, a.w - b.w⟩

def smul (q : ℚ) (a : Vec4) : Vec4 := ⟨q * a.x, q * a.y, q * a.z, q * a.w⟩

/-- Componentwise product (`Vec4 * Vec4` in glam). -/
def compMul (a b : Vec4) : Vec4 := ⟨a.x * b.x, a.y * b.y, a.z * b.z, a.w * b.w⟩

instance : Add Vec4 := ⟨Vec4.add⟩

instance : Sub Vec4 := ⟨Vec4.sub⟩

instance : SMul ℚ Vec4 := ⟨Vec4.smul⟩

/-- `Vec4::truncate` / `normal_d.xyz()`. -/
def xyz (a : Vec4) : Vec3 := ⟨a.x, a.y, a.z⟩

end Vec4

/-- Column-major 3×3 matrix, modelling `glam::Mat3A`. -/
structure Mat3 where
  xAxis : Vec3
  yAxis : Vec3
  zAxis : Vec3
  deriving DecidableEq, Repr

namespace Mat3

/-- `Mat3::mul_vec3`: linear combination of the columns. -/
def mulVec (m : Mat3) (v : Vec3) : Vec3 := v.x • m.xAxis + v.y • m.yAxis + v.z • m.zAxis

/-- `Mat3 * Mat3`: apply `m` to each column of `n`. -/
def mul (m n : Mat3) : Mat3 := ⟨m.mulVec n.xAxis, m.mulVec n.yAxis, m.mulVec n.zAxis⟩

def transpose (m : Mat3) : Mat3 :=
  ⟨⟨m.xAxis.x, m.yAxis.x, m.zAxis.x⟩,
   ⟨m.xAxis.y, m.yAxis.y, m.zAxis.y⟩,
   ⟨m.xAxis.z, m.yAxis.z, m.zAxis.z⟩⟩

/-- `Mat3::determinant`: `self.z_axis.dot(self.x_axis.cross(self.y_axis))`. -/
def determinant (m : Mat3) : ℚ := m.zAxis.dot (m.xAxis.cross m.yAxis)

/-- `Mat3::inverse` (glam): scaled cross products, transposed.  On a singular
matrix glam's debug assertion fires; here `1/0 = 0` gives the zero matrix. -/
def inverse (m : Mat3) : Mat3 :=
  let tmp0 := m.yAxis.cross m.zAxis
  let tmp1 := m.zAxis.cross m.xAxis
  let tmp2 := m.xAxis.cross m.yAxis
  let det := m.zAxis.dot tmp2
  let invDet := det⁻¹
  Mat3.transpose ⟨invDet • tmp0, invDet • tmp1, invDet • tmp2⟩

/-- Identity matrix. -/
def id3 : Mat3 := ⟨⟨1, 0, 0⟩, ⟨0, 1, 0⟩, ⟨0, 0, 1⟩⟩

end Mat3

/-- Affine transform: 3×3 linear part plus translation, modelling
`glam::Affine3A` (the representation of `bevy` `GlobalTransform`). -/
structure Affine3 where
  matrix3 : Mat3
  translation : Vec3
  deriving DecidableEq, Repr

namespace Affine3

/-- `Affine3A * Affine3A`. -/
def mul (a b : Affine3) : Affine3 :=
  ⟨a.matrix3.mul b.matrix3, a.matrix3.mulVec b.translation + a.translation⟩

/-- `Affine3A::inverse`. -/
def inverse (a : Affine3) : Affine3 :=
  let matrix3 := a.matrix3.inverse
  ⟨matrix3, -(matrix3.mulVec a.translation)⟩

/-- `Affine3A::transform_point3` (also `GlobalTransform::transform_point`). -/
def transformPoint (a : Affine3) (p : Vec3) : Vec3 := a.matrix3.mulVec p + a.translation

end Affine3

section BasicLemmas

lemma Vec3.ext3 {a b : Vec3} (hx : a.x = b.x) (hy : a.y = b.y) (hz : a.z = b.z) : a = b := by
  cases a; cases b; simp_all

lemma Vec3.add_def (a b : Vec3) : a + b = ⟨a.x + b.x, a.y + b.y, a.z + b.z⟩ := rfl

lemma Vec3.sub_def (a b : Vec3) : a - b = ⟨a.x - b.x, a.y - b.y, a.z - b.z⟩ := rfl

lemma Vec3.neg_def (a : Vec3) : -a = ⟨-a.x, -a.y, -a.z⟩ := rfl

lemma Vec3.smul_def (q : ℚ) (a : Vec3) : q • a = ⟨q * a.x, q * a.y, q * a.z⟩ := rfl

lemma Vec3.zero_def : (0 : Vec3) = ⟨0, 0, 0⟩ := rfl

/-- A rational sum of squares vanishes only at the zero vector. -/
lemma Vec3.dot_self_eq_zero_iff {v : Vec3} : v.dot v = 0 ↔ v = 0 := by
  constructor
  · intro h
    simp only [Vec3.dot] at h
    have hx : v.x = 0 := by nlinarith [sq_nonneg v.x, sq_nonneg v.y, sq_nonneg v.z]
    have hy : v.y = 0 := by nlinarith [sq_nonneg v.x, sq_nonneg v.y, sq_nonneg v.z]
    have hz : v.z = 0 := by nlinarith [sq_nonneg v.x, sq_nonneg v.y, sq_nonneg v.z]
    exact Vec3.ext3 hx hy hz
  · intro h
    subst h
    simp [Vec3.dot, Vec3.zero_def]

lemma Vec3.dot_self_ne_zero {v : Vec3} (h : v ≠ 0) : v.dot v ≠ 0 := by
  intro hc
  exact h (Vec3.dot_self_eq_zero_iff.mp hc)

/-- `Mat3 * Mat3.inverse = 1` when the determinant is nonzero. -/
lemma Mat3.mul_inverse {m : Mat3} (h : m.determinant ≠ 0) : m.mul m.inverse = Mat3.id3 := by
  obtain ⟨⟨ax, ay, az⟩, ⟨bx, by', bz⟩, ⟨cx, cy, cz⟩⟩ := m
  simp only [Mat3.determinant, Vec3.dot, Vec3.cross] at h
  simp only [Mat3.mul, Mat3.inverse, Mat3.mulVec, Mat3.transpose, Mat3.id3, Vec3.cross,
    Vec3.dot, Vec3.smul_def, Vec3.add_def, Mat3.mk.injEq, Vec3.mk.injEq]
  refine ⟨⟨?_, ?_, ?_⟩, ⟨?_, ?_, ?_⟩, ⟨?_, ?_, ?_⟩⟩ <;> field_simp <;> ring

lemma Mat3.id3_mul (m : Mat3) : Mat3.id3.mul m = m := by
  obtain ⟨⟨ax, ay, az⟩, ⟨bx, by', bz⟩, ⟨cx, cy, cz⟩⟩ := m
  simp only [Mat3.mul, Mat3.mulVec, Mat3.id3, Vec3.smul_def, Vec3.add_def, Mat3.mk.injEq,
    Vec3.mk.injEq]
  norm_num

lemma Mat3.id3_mulVec (v : Vec3) : Mat3.id3.mulVec v = v := by
  obtain ⟨x, y, z⟩ := v
  simp only [Mat3.mulVec, Mat3.id3, Vec3.smul_def, Vec3.add_def, Vec3.mk.injEq]
  norm_num

lemma Mat3.mul_mulVec (a b : Mat3) (v : Vec3) : (a.mul b).mulVec v = a.mulVec (b.mulVec v) := by
  obtain ⟨⟨ax, ay, az⟩, ⟨bx, by', bz⟩, ⟨cx, cy, cz⟩⟩ := a
  obtain ⟨⟨dx, dy, dz⟩, ⟨ex, ey, ez⟩, ⟨fx, fy, fz⟩⟩ := b
  obtain ⟨x, y, z⟩ := v
  simp only [Mat3.mul, Mat3.mulVec, Vec3.smul_def, Vec3.add_def, Vec3.mk.injEq]
  refine ⟨by ring, by ring, by ring⟩

lemma Mat3.mulVec_neg (m : Mat3) (v : Vec3) : m.mulVec (-v) = -(m.mulVec v) := by
  obtain ⟨⟨ax, ay, az⟩, ⟨bx, by', bz⟩, ⟨cx, cy, cz⟩⟩ := m
  obtain ⟨x, y, z⟩ := v
  simp only [Mat3.mulVec, Vec3.neg_def, Vec3.smul_def, Vec3.add_def, Vec3.mk.injEq]
  refine ⟨by ring, by ring, by ring⟩

lemma Vec3.neg_add_cancel (v : Vec3) : -v + v = 0 := by
  obtain ⟨x, y, z⟩ := v
  simp only [Vec3.neg_def, Vec3.add_def, Vec3.zero_def, Vec3.mk.injEq]
  refine ⟨by ring, by ring, by ring⟩

lemma Vec3.add_zero_right (v : Vec3) : v + 0 = v := by
  obtain ⟨x, y, z⟩ := v
  simp only [Vec3.add_def, Vec3.zero_def, Vec3.mk.injEq]
  refine ⟨by ring, by ring, by ring⟩

/-- The affine identity. -/
def Affine3.idA : Affine3 := ⟨Mat3.id3, 0⟩

lemma Affine3.mul_inverse_a {a : Affine3} (h : a.matrix3.determinant ≠ 0) :
    a.mul a.inverse = Affine3.idA := by
  have hmi := Mat3.mul_inverse h
  simp only [Affine3.mul, Affine3.inverse, Affine3.idA, hmi, Mat3.mulVec_neg,
    ← Mat3.mul_mulVec, hmi, Mat3.id3_mulVec, Vec3.neg_add_cancel]

lemma Affine3.idA_mul (a : Affine3) : Affine3.idA.mul a = a := by
  simp only [Affine3.mul, Affine3.idA, Mat3.id3_mul, Mat3.id3_mulVec, Vec3.add_zero_right]

end BasicLemmas

/-! ## The portal-camera transform solver (`update.rs`) -/

/-- `mirror_vec` from `update.rs`:
mirrors a vector "without origin" across the plane normal. -/
def mirror_vec (vec mirror_normal : Vec3) : Vec3 :=
  let vec_proj := vec.projectOnto mirror_normal
  vec - (2 : ℚ) • vec_proj

/-- The `length_recip` model: an abstract inverse-length function on `Vec3`.
Appears wherever the source normalizes a vector. -/
abbrev InvLen := Vec3 → ℚ

/-- `Vec3::normalize`: `self * self.length_recip()`. -/
def normalizeV (invLen : InvLen) (v : Vec3) : Vec3 := invLen v • v

/-- `Dir3::new` / `TryInto<Dir3>`: fails on the zero vector (the finiteness
check of the source), otherwise the normalized vector. -/
def dir3New (invLen : InvLen) (v : Vec3) : Option Vec3 :=
  if v = 0 then none else some (normalizeV invLen v)

/-- `Vec3::try_normalize`: `none` exactly when the length is not positive. -/
def tryNormalizeV (invLen : InvLen) (v : Vec3) : Option Vec3 :=
  if v = 0 then none else some (normalizeV invLen v)

/-- `f32::signum` on rationals (glam's `math::signum`); `signum 0 = 1`
because `+0.0` has a positive sign bit. -/
def signumQ (q : ℚ) : ℚ := if q < 0 then -1 else 1

/-- `Vec3::any_orthonormal_vector` (Pixar orthonormal-basis construction). -/
def anyOrthonormalVector (v : Vec3) : Vec3 :=
  let sign := signumQ v.z
  let a := -1 / (sign + v.z)
  let b := v.x * v.y * a
  ⟨b, sign + v.y * v.y * a, -v.y⟩

/-- A `bevy` `Transform`: translation, rotation and scale.  The rotation
quaternion is modelled by its rotation matrix (see the file header). -/
structure Transform where
  translation : Vec3
  rotation : Mat3
  scale : Vec3
  deriving DecidableEq, Repr

namespace Transform

/-- `Transform::forward()`: `rotation * Vec3::NEG_Z`. -/
def forward (t : Transform) : Vec3 := t.rotation.mulVec ⟨0, 0, -1⟩

/-- `Transform::up()`: `rotation * Vec3::Y`. -/
def up (t : Transform) : Vec3 := t.rotation.mulVec ⟨0, 1, 0⟩

end Transform

/-- The rotation built by `Transform::look_to`, at the level of rotation
matrices (`Quat::from_mat3(Mat3::from_cols(right, up, back))` is modelled by
that matrix). -/
def lookToRotation (invLen : InvLen) (direction up : Vec3) : Mat3 :=
  let back := -((dir3New invLen direction).getD ⟨0, 0, -1⟩)
  let up0 := (dir3New invLen up).getD ⟨0, 1, 0⟩
  let right := (tryNormalizeV invLen (up0.cross back)).getD (anyOrthonormalVector up0)
  let up1 := back.cross right
  ⟨right, up1, back⟩

/-- `Transform::look_to`. -/
def Transform.lookTo (invLen : InvLen) (t : Transform) (direction up : Vec3) : Transform :=
  { t with rotation := lookToRotation invLen direction up }

/-- `mirror_transform` from `update.rs`. -/
def mirror_transform (invLen : InvLen) (transform : Transform)
    (mirror_translation mirror_normal : Vec3) : Transform :=
  let t1 :=
    { transform with
      translation :=
        mirror_translation + mirror_vec (transform.translation - mirror_translation) mirror_normal }
  t1.lookTo invLen (mirror_vec t1.forward mirror_normal) (mirror_vec t1.up mirror_normal)

/-- `GlobalTransform::transform_point` on the `Affine3` model (alias used by
`get_portal_camera_transform`). -/
def globalTransformPoint (a : Affine3) (p : Vec3) : Vec3 := a.transformPoint p

/-- `Affine3A::to_scale_rotation_translation`, with the rotation kept as the
matrix of normalized columns (`Quat::from_mat3` modelled by its argument). -/
def toScaleRotationTranslation (invLen : InvLen) (a : Affine3) : Vec3 × Mat3 × Vec3 :=
  let det := a.matrix3.determinant
  let vlen : Vec3 → ℚ := fun v => v.dot v * invLen v
  let scale : Vec3 :=
    ⟨vlen a.matrix3.xAxis * signumQ det, vlen a.matrix3.yAxis, vlen a.matrix3.zAxis⟩
  let rotation : Mat3 :=
    ⟨(scale.x)⁻¹ • a.matrix3.xAxis, (scale.y)⁻¹ • a.matrix3.yAxis, (scale.z)⁻¹ • a.matrix3.zAxis⟩
  (scale, rotation, a.translation)

/-- `GlobalTransform::compute_transform`. -/
def computeTransform (invLen : InvLen) (a : Affine3) : Transform :=
  let (scale, rotation, translation) := toScaleRotationTranslation invLen a
  ⟨translation, rotation, scale⟩

/-- `Transform::compute_affine` (the `Transform → GlobalTransform`
conversion): rotation matrix times diagonal scale, plus translation. -/
def Transform.computeAffine (t : Transform) : Affine3 :=
  ⟨⟨t.scale.x • t.rotation.xAxis, t.scale.y • t.rotation.yAxis, t.scale.z • t.rotation.zAxis⟩,
   t.translation⟩

/-- `get_portal_camera_transform` from `update.rs`: the transform that moves
the main camera's pose through the portal onto the destination, with the
optional mirror applied. -/
def get_portal_camera_transform (invLen : InvLen) (main_camera_transform : Affine3)
    (portal_transform : Affine3) (destination_transform : Affine3)
    (mirror : Option (Vec3 × Vec3)) : Affine3 :=
  let portal_camera_global_transform :=
    (destination_transform.mul portal_transform.inverse).mul main_camera_transform
  match mirror with
  | none => portal_camera_global_transform
  | some (origin, normal) =>
      let transform := computeTransform invLen portal_camera_global_transform
      let transform :=
        mirror_transform invLen transform
          (destination_transform.transformPoint origin)
          (destination_transform.transformPoint normal - destination_transform.translation)
      transform.computeAffine

/-- C1 — Identity property: with destination pose equal to the portal pose
and no mirror, `get_portal_camera_transform` returns the main camera pose
exactly, for every invertible portal pose. -/
theorem portal_camera_transform_identity (invLen : InvLen) (m p : Affine3)
    (hp : p.matrix3.determinant ≠ 0) :
    get_portal_camera_transform invLen m p p none = m := by
  simp only [get_portal_camera_transform, Affine3.mul_inverse_a hp, Affine3.idA_mul]

/-- Witness for C1 at a concrete invertible portal pose. -/
theorem portal_camera_transform_identity_witness :
    (Affine3.mk ⟨⟨1, 0, 0⟩, ⟨0, 2, 0⟩, ⟨1, 0, 3⟩⟩ ⟨5, -1, 2⟩).matrix3.determinant ≠ 0 ∧
    get_portal_camera_transform (fun _ => 0)
      (Affine3.mk ⟨⟨0, 1, 0⟩, ⟨-1, 0, 0⟩, ⟨0, 0, 1⟩⟩ ⟨7, 8, 9⟩)
      (Affine3.mk ⟨⟨1, 0, 0⟩, ⟨0, 2, 0⟩, ⟨1, 0, 3⟩⟩ ⟨5, -1, 2⟩)
      (Affine3.mk ⟨⟨1, 0, 0⟩, ⟨0, 2, 0⟩, ⟨1, 0, 3⟩⟩ ⟨5, -1, 2⟩) none =
      Affine3.mk ⟨⟨0, 1, 0⟩, ⟨-1, 0, 0⟩, ⟨0, 0, 1⟩⟩ ⟨7, 8, 9⟩ := by
  have hdet : (Affine3.mk ⟨⟨1, 0, 0⟩, ⟨0, 2, 0⟩, ⟨1, 0, 3⟩⟩ ⟨5, -1, 2⟩).matrix3.determinant ≠ 0 := by
    norm_num [Mat3.determinant, Vec3.cross, Vec3.dot]
  exact ⟨hdet, portal_camera_transform_identity (fun _ => 0) _ _ hdet⟩

/-! ## 4×4 matrices (`glam::Mat4`), used for the view-projection matrix -/

/-- Column-major 4×4 matrix, modelling `glam::Mat4`. -/
structure Mat4 where
  xAxis : Vec4
  yAxis : Vec4
  zAxis : Vec4
  wAxis : Vec4
  deriving DecidableEq, Repr

namespace Mat4

def mulVec4 (m : Mat4) (v : Vec4) : Vec4 :=
  v.x • m.xAxis + v.y • m.yAxis + v.z • m.zAxis + v.w • m.wAxis

/-- `Mat4 * Mat4`. -/
def mul (m n : Mat4) : Mat4 :=
  ⟨m.mulVec4 n.xAxis, m.mulVec4 n.yAxis, m.mulVec4 n.zAxis, m.mulVec4 n.wAxis⟩

/-- `Mat4::row`. -/
def row (m : Mat4) : Nat → Vec4
  | 0 => ⟨m.xAxis.x, m.yAxis.x, m.zAxis.x, m.wAxis.x⟩
  | 1 => ⟨m.xAxis.y, m.yAxis.y, m.zAxis.y, m.wAxis.y⟩
  | 2 => ⟨m.xAxis.z, m.yAxis.z, m.zAxis.z, m.wAxis.z⟩
  | _ => ⟨m.xAxis.w, m.yAxis.w, m.zAxis.w, m.wAxis.w⟩

def id4 : Mat4 := ⟨⟨1, 0, 0, 0⟩, ⟨0, 1, 0, 0⟩, ⟨0, 0, 1, 0⟩, ⟨0, 0, 0, 1⟩⟩

/-- `Mat4::inverse` (glam's scalar implementation, cofactor method).  On a
singular matrix glam's debug assertion fires; here `1/0 = 0`. -/
def inverse (m : Mat4) : Mat4 :=
  let m00 := m.xAxis.x; let m01 := m.xAxis.y; let m02 := m.xAxis.z; let m03 := m.xAxis.w
  let m10 := m.yAxis.x; let m11 := m.yAxis.y; let m12 := m.yAxis.z; let m13 := m.yAxis.w
  let m20 := m.zAxis.x; let m21 := m.zAxis.y; let m22 := m.zAxis.z; let m23 := m.zAxis.w
  let m30 := m.wAxis.x; let m31 := m.wAxis.y; let m32 := m.wAxis.z; let m33 := m.wAxis.w
  let coef00 := m22 * m33 - m32 * m23
  let coef02 := m12 * m33 - m32 * m13
  let coef03 := m12 * m23 - m22 * m13
  let coef04 := m21 * m33 - m31 * m23
  let coef06 := m11 * m33 - m31 * m13
  let coef07 := m11 * m23 - m21 * m13
  let coef08 := m21 * m32 - m31 * m22
  let coef10 := m11 * m32 - m31 * m12
  let coef11 := m11 * m22 - m21 * m12
  let coef12 := m20 * m33 - m30 * m23
  let coef14 := m10 * m33 - m30 * m13
  let coef15 := m10 * m23 - m20 * m13
  let coef16 := m20 * m32 - m30 * m22
  let coef18 := m10 * m32 - m30 * m12
  let coef19 := m10 * m22 - m20 * m12
  let coef20 := m20 * m31 - m30 * m21
  let coef22 := m10 * m31 - m30 * m11
  let coef23 := m10 * m21 - m20 * m11
  let fac0 : Vec4 := ⟨coef00, coef00, coef02, coef03⟩
  let fac1 : Vec4 := ⟨coef04, coef04, coef06, coef07⟩
  let fac2 : Vec4 := ⟨coef08, coef08, coef10, coef11⟩
  let fac3 : Vec4 := ⟨coef12, coef12, coef14, coef15⟩
  let fac4 : Vec4 := ⟨coef16, coef16, coef18, coef19⟩
  let fac5 : Vec4 := ⟨coef20, coef20, coef22, coef23⟩
  let vec0 : Vec4 := ⟨m10, m00, m00, m00⟩
  let vec1 : Vec4 := ⟨m11, m01, m01, m01⟩
  let vec2 : Vec4 := ⟨m12, m02, m02, m02⟩
  let vec3 : Vec4 := ⟨m13, m03, m03, m03⟩
  let inv0 := vec1.compMul fac0 - vec2.compMul fac1 + vec3.compMul fac2
  let inv1 := vec0.compMul fac0 - vec2.compMul fac3 + vec3.compMul fac4
  let inv2 := vec0.compMul fac1 - vec1.compMul fac3 + vec3.compMul fac5
  let inv3 := vec0.compMul fac2 - vec1.compMul fac4 + vec2.compMul fac5
  let signA : Vec4 := ⟨1, -1, 1, -1⟩
  let signB : Vec4 := ⟨-1, 1, -1, 1⟩
  let inv : Mat4 := ⟨inv0.compMul signA, inv1.compMul signB, inv2.compMul signA, inv3.compMul signB⟩
  let col0 : Vec4 := ⟨inv.xAxis.x, inv.yAxis.x, inv.zAxis.x, inv.wAxis.x⟩
  let dot0 := m.xAxis.compMul col0
  let dot1 := dot0.x + dot0.y + dot0.z + dot0.w
  let rcpDet := dot1⁻¹
  ⟨rcpDet • inv.xAxis, rcpDet • inv.yAxis, rcpDet • inv.zAxis, rcpDet • inv.wAxis⟩

end Mat4

namespace Affine3

/-- `GlobalTransform::compute_matrix` (`Mat4::from(Affine3A)`). -/
def computeMatrix (a : Affine3) : Mat4 :=
  ⟨a.matrix3.xAxis.extend 0, a.matrix3.yAxis.extend 0, a.matrix3.zAxis.extend 0,
   a.translation.extend 1⟩

/-- `GlobalTransform::back()`: the normalized local-Z axis. -/
def back (invLen : InvLen) (a : Affine3) : Vec3 := normalizeV invLen a.matrix3.zAxis

/-- `GlobalTransform::forward()`: `-back()`. -/
def forward (invLen : InvLen) (a : Affine3) : Vec3 := -(back invLen a)

/-- `GlobalTransform::rotation()`: the rotation part of
`to_scale_rotation_translation` (as a matrix, see the file header). -/
def rotationM (invLen : InvLen) (a : Affine3) : Mat3 :=
  (toScaleRotationTranslation invLen a).2.1

end Affine3

/-! ## Half-spaces and frusta (`bevy_render::primitives`) -/

/-- `bevy` `HalfSpace`: the stored `normal_d` vector (normalized by `new`). -/
structure HalfSpace where
  normalD : Vec4
  deriving DecidableEq, Repr

namespace HalfSpace

/-- `HalfSpace::new`: `normal_d * normal_d.xyz().length_recip()`. -/
def new (invLen : InvLen) (normalD : Vec4) : HalfSpace := ⟨invLen normalD.xyz • normalD⟩

/-- `HalfSpace::normal()`. -/
def normal (h : HalfSpace) : Vec3 := h.normalD.xyz

/-- `HalfSpace::d()`. -/
def d (h : HalfSpace) : ℚ := h.normalD.w

end HalfSpace

/-- `bevy` `Frustum`: an array of six half-spaces
(0 = left, 1 = right, 2 = bottom, 3 = top, 4 = near, 5 = far). -/
structure Frustum where
  halfSpaces : Fin 6 → HalfSpace

/-- `Frustum::from_clip_from_world_custom_far`: the five planes extracted from
the rows of the clip-from-world matrix (`from_clip_from_world_no_far`), with
index 5 replaced by the custom far half-space. -/
def Frustum.fromClipFromWorldCustomFar (invLen : InvLen) (clipFromWorld : Mat4)
    (viewTranslation viewBackward : Vec3) (far : ℚ) : Frustum :=
  { halfSpaces := fun i =>
      match i with
      | ⟨0, _⟩ => HalfSpace.new invLen (clipFromWorld.row 3 + clipFromWorld.row 0)
      | ⟨1, _⟩ => HalfSpace.new invLen (clipFromWorld.row 3 - clipFromWorld.row 0)
      | ⟨2, _⟩ => HalfSpace.new invLen (clipFromWorld.row 3 + clipFromWorld.row 1)
      | ⟨3, _⟩ => HalfSpace.new invLen (clipFromWorld.row 3 - clipFromWorld.row 1)
      | ⟨4, _⟩ => HalfSpace.new invLen (clipFromWorld.row 3 + clipFromWorld.row 2)
      | ⟨_ + 5, _⟩ =>
          let farCenter := viewTranslation - far • viewBackward
          HalfSpace.new invLen (viewBackward.extend (-(viewBackward.dot farCenter))) }

/-- `bevy` `Projection`, through the only two methods the crate calls on it:
`get_clip_from_view()` and `far()`. -/
structure Projection where
  clipFromView : Mat4
  far : ℚ
  deriving DecidableEq, Repr

/-- `PortalMode` from `api.rs`. -/
inductive PortalMode where
  /-- Frustum straight from the projection matrix. -/
  | maskedImageNoFrustum
  /-- Near plane replaced by a half-space in destination-local space
  (`None` means the plane `z < 0`); the `Bool` switches the normal when the
  camera is inside the half-space. -/
  | maskedImageHalfSpaceFrustum (halfSpace : Option HalfSpace) (switchNormal : Bool)
  /-- Near plane tangent to a sphere given by origin and distance in
  destination-local space, always facing the portal camera. -/
  | maskedImageSphereHalfSpaceFrustum (origin : Vec3) (distance : ℚ)
  deriving DecidableEq, Repr

/-- The `PortalCamera` component (`create.rs`): image handle and portal mode. -/
structure PortalCamera where
  image : Nat
  portalMode : PortalMode
  deriving DecidableEq, Repr

/-- The frustum computed by `get_frustum` before the near-plane replacement
(`update.rs` lines 272–280): the standard extraction from
`clip_from_view * camera_matrix⁻¹` with the projection's far distance. -/
def standard_frustum (invLen : InvLen) (portal_camera_transform : Affine3)
    (projection : Projection) : Frustum :=
  let view_projection :=
    projection.clipFromView.mul portal_camera_transform.computeMatrix.inverse
  Frustum.fromClipFromWorldCustomFar invLen view_projection
    portal_camera_transform.translation
    (Affine3.back invLen portal_camera_transform)
    projection.far

/-- `get_frustum` from `update.rs`.  `f32::is_sign_positive` is modelled by
`0 ≤ ·` and the literal `0.00001` by the rational `1/100000`. -/
def get_frustum (invLen : InvLen) (portal_camera : PortalCamera)
    (portal_camera_transform destination_transform : Affine3)
    (projection : Projection) : Frustum :=
  let frustum := standard_frustum invLen portal_camera_transform projection
  match portal_camera.portalMode with
  | .maskedImageHalfSpaceFrustum halfSpace switchNormal =>
      let pair : Vec3 × ℚ :=
        match halfSpace with
        | some half_space =>
            ((Affine3.rotationM invLen destination_transform).mulVec half_space.normal,
             half_space.d)
        | none => (Affine3.forward invLen destination_transform, 0)
      let nearNormal0 := pair.1
      let half_space_d := pair.2
      let near_half_space_normal :=
        if switchNormal &&
            decide (0 ≤ nearNormal0.dot
              (portal_camera_transform.translation - destination_transform.translation)) then
          -nearNormal0
        else nearNormal0
      let dotQ := destination_transform.translation.dot
        (normalizeV invLen near_half_space_normal)
      let near_half_space_distance := -(dotQ + half_space_d) - 1/100000
      { frustum with
        halfSpaces := Function.update frustum.halfSpaces 4
          (HalfSpace.new invLen (near_half_space_normal.extend near_half_space_distance)) }
  | .maskedImageSphereHalfSpaceFrustum origin distance =>
      let near_half_space_normal := Affine3.forward invLen portal_camera_transform
      let sphere_tangeant_point :=
        destination_transform.translation + origin - distance • near_half_space_normal
      let near_half_space_distance := -(sphere_tangeant_point.dot near_half_space_normal)
      { frustum with
        halfSpaces := Function.update frustum.halfSpaces 4
          (HalfSpace.new invLen (near_half_space_normal.extend near_half_space_distance)) }
  | .maskedImageNoFrustum => frustum

/-- A concrete instantiation of the abstract inverse length used by
witnesses: exact on unit vectors, `0` elsewhere. -/
def invLenQ : InvLen := fun v => if v.dot v = 1 then 1 else 0

/-- C2 — Frame guarantee of the frustum derivation: the four side half-spaces
(indices 0–3) and the far half-space (index 5) of `get_frustum` equal those of
the standard extraction from `clip_from_view * camera_matrix⁻¹` with the
projection's far distance; at most the near half-space (index 4) differs, and
in `MaskedImageNoFrustum` mode the whole frustum is the unmodified standard
extraction. -/
theorem get_frustum_frame (invLen : InvLen) (pc : PortalCamera) (pct dt : Affine3)
    (proj : Projection) :
    (∀ i : Fin 6, i ≠ 4 →
      (get_frustum invLen pc pct dt proj).halfSpaces i =
        (standard_frustum invLen pct proj).halfSpaces i) ∧
    (pc.portalMode = PortalMode.maskedImageNoFrustum →
      get_frustum invLen pc pct dt proj = standard_frustum invLen pct proj) := by
  constructor
  · intro i hi
    cases hmode : pc.portalMode <;>
      simp only [get_frustum, hmode, Function.update_noteq hi]
  · intro hmode
    simp only [get_frustum, hmode]

/-- Witness for C2 at concrete inputs: a side plane (index 0) of a
sphere-mode frustum agrees with the standard extraction, and a
`MaskedImageNoFrustum` frustum is the standard extraction itself. -/
theorem get_frustum_frame_witness :
    ((get_frustum invLenQ ⟨0, .maskedImageSphereHalfSpaceFrustum 0 1⟩ Affine3.idA Affine3.idA
        ⟨Mat4.id4, 10⟩).halfSpaces 0 =
      (standard_frustum invLenQ Affine3.idA ⟨Mat4.id4, 10⟩).halfSpaces 0) ∧
    (get_frustum invLenQ ⟨0, .maskedImageNoFrustum⟩ Affine3.idA Affine3.idA ⟨Mat4.id4, 10⟩ =
      standard_frustum invLenQ Affine3.idA ⟨Mat4.id4, 10⟩) := by
  constructor
  · exact (get_frustum_frame invLenQ ⟨0, .maskedImageSphereHalfSpaceFrustum 0 1⟩ Affine3.idA
      Affine3.idA ⟨Mat4.id4, 10⟩).1 0 (by decide)
  · exact (get_frustum_frame invLenQ ⟨0, .maskedImageNoFrustum⟩ Affine3.idA Affine3.idA
      ⟨Mat4.id4, 10⟩).2 rfl

section VecHelpers

lemma Vec3.one_smul_v (v : Vec3) : (1 : ℚ) • v = v := by
  obtain ⟨x, y, z⟩ := v
  simp [Vec3.smul_def]

lemma Vec3.dot_comm (a b : Vec3) : a.dot b = b.dot a := by
  simp only [Vec3.dot]; ring

lemma Vec3.smul_zero_v (q : ℚ) : q • (0 : Vec3) = 0 := by
  simp [Vec3.smul_def, Vec3.zero_def]

lemma Vec3.neg_zero_v : -(0 : Vec3) = 0 := by
  simp [Vec3.neg_def, Vec3.zero_def]

lemma Vec3.dot_zero_right (a : Vec3) : a.dot 0 = 0 := by
  simp [Vec3.dot, Vec3.zero_def]

lemma Vec4.smul_def4 (q : ℚ) (a : Vec4) : q • a = ⟨q * a.x, q * a.y, q * a.z, q * a.w⟩ := rfl

lemma Vec4.add_def4 (a b : Vec4) : a + b = ⟨a.x + b.x, a.y + b.y, a.z + b.z, a.w + b.w⟩ := rfl

lemma Vec4.sub_def4 (a b : Vec4) : a - b = ⟨a.x - b.x, a.y - b.y, a.z - b.z, a.w - b.w⟩ := rfl

lemma Vec4.one_smul_v4 (v : Vec4) : (1 : ℚ) • v = v := by
  obtain ⟨x, y, z, w⟩ := v
  simp [Vec4.smul_def4]

lemma Vec3.xyz_of_extend (v : Vec3) (w : ℚ) : (v.extend w).xyz = v := rfl

/-- `-zAxis` is the image of the local `(0,0,-1)` under the linear part. -/
lemma Mat3.mulVec_negZ (m : Mat3) : m.mulVec ⟨0, 0, -1⟩ = -m.zAxis := by
  obtain ⟨⟨ax, ay, az⟩, ⟨bx, by', bz⟩, ⟨cx, cy, cz⟩⟩ := m
  simp only [Mat3.mulVec, Vec3.smul_def, Vec3.add_def, Vec3.neg_def, Vec3.mk.injEq]
  refine ⟨by ring, by ring, by ring⟩

end VecHelpers

/-- C3 (counterexample) — the near half-space normal computed in
`MaskedImageSphereHalfSpaceFrustum` mode is the portal camera's *forward*
direction, not its backward direction as the claim states: at the identity
camera pose the stored normal is `(0,0,-1)` while `back()` is `(0,0,1)`. -/
theorem sphere_near_normal_counterexample :
    ((get_frustum invLenQ ⟨0, .maskedImageSphereHalfSpaceFrustum 0 1⟩ Affine3.idA Affine3.idA
        ⟨Mat4.id4, 10⟩).halfSpaces 4).normal ≠ Affine3.back invLenQ Affine3.idA := by
  norm_num [get_frustum, Function.update_same, HalfSpace.new, HalfSpace.normal,
    Affine3.forward, Affine3.back, normalizeV, invLenQ, Affine3.idA, Mat3.id3,
    Vec3.dot, Vec3.smul_def, Vec3.neg_def, Vec3.add_def, Vec3.sub_def, Vec3.zero_def,
    Vec3.extend, Vec4.xyz, Vec4.smul_def4, Vec3.mk.injEq]

/-- C3 (amended) — Sphere-tangent mode: whenever the portal camera's local-Z
axis has an exact inverse length (so its `forward()` is a unit vector), the
near half-space normal equals the portal camera's own *forward* direction and
the plane passes through `destination.translation + origin - distance • normal`
(tangent to the sphere of that radius about `destination.translation + origin`). -/
theorem sphere_near_plane (invLen : InvLen) (hunit : ∀ v, v.dot v = 1 → invLen v = 1)
    (img : Nat) (origin : Vec3) (distance : ℚ) (pct dt : Affine3) (proj : Projection)
    (hz : invLen pct.matrix3.zAxis * invLen pct.matrix3.zAxis *
      pct.matrix3.zAxis.dot pct.matrix3.zAxis = 1) :
    ((get_frustum invLen ⟨img, .maskedImageSphereHalfSpaceFrustum origin distance⟩ pct dt
        proj).halfSpaces 4).normal = Affine3.forward invLen pct ∧
    (Affine3.forward invLen pct).dot
        (dt.translation + origin - distance • Affine3.forward invLen pct) +
      ((get_frustum invLen ⟨img, .maskedImageSphereHalfSpaceFrustum origin distance⟩ pct dt
        proj).halfSpaces 4).d = 0 := by
  have hn1 : (Affine3.forward invLen pct).dot (Affine3.forward invLen pct) = 1 := by
    obtain ⟨⟨⟨ax, ay, az⟩, ⟨bx, by', bz⟩, ⟨cx, cy, cz⟩⟩, t⟩ := pct
    simp only [Affine3.forward, Affine3.back, normalizeV, Vec3.dot, Vec3.smul_def,
      Vec3.neg_def] at hz ⊢
    linear_combination hz
  have hinv := hunit _ hn1
  have hhs : ((get_frustum invLen ⟨img, .maskedImageSphereHalfSpaceFrustum origin distance⟩
      pct dt proj).halfSpaces 4) =
      ⟨(Affine3.forward invLen pct).extend
        (-((dt.translation + origin - distance • Affine3.forward invLen pct).dot
          (Affine3.forward invLen pct)))⟩ := by
    simp only [get_frustum, Function.update_same, HalfSpace.new, Vec3.xyz_of_extend, hinv,
      Vec4.one_smul_v4]
  rw [hhs]
  constructor
  · rfl
  · simp only [HalfSpace.d, Vec3.extend]
    rw [Vec3.dot_comm]
    ring

/-- Witness for C3's amended theorem at the identity camera pose. -/
theorem sphere_near_plane_witness :
    (∀ v : Vec3, v.dot v = 1 → invLenQ v = 1) ∧
    (invLenQ (Affine3.idA.matrix3.zAxis) * invLenQ (Affine3.idA.matrix3.zAxis) *
      (Affine3.idA.matrix3.zAxis).dot (Affine3.idA.matrix3.zAxis) = 1) ∧
    (((get_frustum invLenQ ⟨0, .maskedImageSphereHalfSpaceFrustum 0 1⟩ Affine3.idA Affine3.idA
        ⟨Mat4.id4, 10⟩).halfSpaces 4).normal = Affine3.forward invLenQ Affine3.idA ∧
    (Affine3.forward invLenQ Affine3.idA).dot
        (Affine3.idA.translation + 0 - (1 : ℚ) • Affine3.forward invLenQ Affine3.idA) +
      ((get_frustum invLenQ ⟨0, .maskedImageSphereHalfSpaceFrustum 0 1⟩ Affine3.idA Affine3.idA
        ⟨Mat4.id4, 10⟩).halfSpaces 4).d = 0) := by
  have hu : ∀ v : Vec3, v.dot v = 1 → invLenQ v = 1 := by
    intro v h
    simp [invLenQ, h]
  have hz : invLenQ (Affine3.idA.matrix3.zAxis) * invLenQ (Affine3.idA.matrix3.zAxis) *
      (Affine3.idA.matrix3.zAxis).dot (Affine3.idA.matrix3.zAxis) = 1 := by
    norm_num [invLenQ, Affine3.idA, Mat3.id3, Vec3.dot]
  exact ⟨hu, hz, sphere_near_plane invLenQ hu 0 0 1 Affine3.idA Affine3.idA ⟨Mat4.id4, 10⟩ hz⟩

/-- C4 — Default half-space near plane and containment: in
`MaskedImageHalfSpaceFrustum` mode with no explicit half-space, when the
destination's local-Z axis is a unit vector (its linear part acts as a
rotation on `(0,0,-1)`), the near half-space normal is the destination's
local `(0,0,-1)` rotated into world space, the stored plane distance is
`-(translation ⬝ normal) - 1/100000`, and the destination origin's signed
plane value is exactly `-1/100000`. -/
theorem half_space_default_near_plane (invLen : InvLen)
    (hunit : ∀ v, v.dot v = 1 → invLen v = 1) (img : Nat) (pct dt : Affine3)
    (proj : Projection) (hz : dt.matrix3.zAxis.dot dt.matrix3.zAxis = 1) :
    ((get_frustum invLen ⟨img, .maskedImageHalfSpaceFrustum none false⟩ pct dt
        proj).halfSpaces 4).normal = dt.matrix3.mulVec ⟨0, 0, -1⟩ ∧
    ((get_frustum invLen ⟨img, .maskedImageHalfSpaceFrustum none false⟩ pct dt
        proj).halfSpaces 4).d =
      -(dt.translation.dot (dt.matrix3.mulVec ⟨0, 0, -1⟩)) - 1/100000 ∧
    (dt.matrix3.mulVec ⟨0, 0, -1⟩).dot dt.translation +
      ((get_frustum invLen ⟨img, .maskedImageHalfSpaceFrustum none false⟩ pct dt
        proj).halfSpaces 4).d = -(1/100000) := by
  have hiz : invLen dt.matrix3.zAxis = 1 := hunit _ hz
  have hfwd : Affine3.forward invLen dt = dt.matrix3.mulVec ⟨0, 0, -1⟩ := by
    rw [Mat3.mulVec_negZ]
    simp only [Affine3.forward, Affine3.back, normalizeV, hiz, Vec3.one_smul_v]
  have hnegneg : ∀ v : Vec3, (-v).dot (-v) = v.dot v := by
    intro v
    obtain ⟨x, y, z⟩ := v
    simp only [Vec3.neg_def, Vec3.dot]
    ring
  have hn1 : (dt.matrix3.mulVec ⟨0, 0, -1⟩).dot (dt.matrix3.mulVec ⟨0, 0, -1⟩) = 1 := by
    rw [Mat3.mulVec_negZ, hnegneg]
    exact hz
  have hinv : invLen (dt.matrix3.mulVec ⟨0, 0, -1⟩) = 1 := hunit _ hn1
  have hhs : ((get_frustum invLen ⟨img, .maskedImageHalfSpaceFrustum none false⟩ pct dt
      proj).halfSpaces 4) =
      ⟨(dt.matrix3.mulVec ⟨0, 0, -1⟩).extend
        (-(dt.translation.dot (dt.matrix3.mulVec ⟨0, 0, -1⟩) + 0) - 1/100000)⟩ := by
    simp only [get_frustum, Function.update_same, hfwd, Bool.false_and, if_neg,
      Bool.false_eq_true, not_false_eq_true, normalizeV, hinv, Vec3.one_smul_v,
      HalfSpace.new, Vec3.xyz_of_extend, Vec4.one_smul_v4]
  rw [hhs]
  refine ⟨rfl, ?_, ?_⟩
  · simp only [HalfSpace.d, Vec3.extend]
    ring
  · simp only [HalfSpace.d, Vec3.extend]
    rw [Vec3.dot_comm]
    ring

/-- Witness for C4 at the identity destination pose. -/
theorem half_space_default_near_plane_witness :
    (∀ v : Vec3, v.dot v = 1 → invLenQ v = 1) ∧
    (Affine3.idA.matrix3.zAxis.dot Affine3.idA.matrix3.zAxis = 1) ∧
    ((get_frustum invLenQ ⟨0, .maskedImageHalfSpaceFrustum none false⟩ Affine3.idA Affine3.idA
        ⟨Mat4.id4, 10⟩).halfSpaces 4).normal = Affine3.idA.matrix3.mulVec ⟨0, 0, -1⟩ := by
  have hu : ∀ v : Vec3, v.dot v = 1 → invLenQ v = 1 := by
    intro v h
    simp [invLenQ, h]
  have hz : Affine3.idA.matrix3.zAxis.dot Affine3.idA.matrix3.zAxis = 1 := by
    norm_num [Affine3.idA, Mat3.id3, Vec3.dot]
  exact ⟨hu, hz,
    (half_space_default_near_plane invLenQ hu 0 Affine3.idA Affine3.idA ⟨Mat4.id4, 10⟩ hz).1⟩

/-- The destination pose used in C5's counterexample: zero scale on the local
Z axis, so its forward direction is degenerate (zero-length). -/
def degenerateDest : Affine3 := ⟨⟨⟨1, 0, 0⟩, ⟨0, 1, 0⟩, ⟨0, 0, 0⟩⟩, ⟨0, 0, 0⟩⟩

/-- C5 (counterexample) — with a degenerate (zero-length) destination forward
direction, `get_frustum` does *not* fall back to the projection-default near
plane: the near half-space is still overwritten and differs from the standard
extraction's near half-space. -/
theorem degenerate_destination_counterexample :
    ((get_frustum invLenQ ⟨0, .maskedImageHalfSpaceFrustum none false⟩ Affine3.idA
        degenerateDest ⟨Mat4.id4, 10⟩).halfSpaces 4) ≠
      ((standard_frustum invLenQ Affine3.idA ⟨Mat4.id4, 10⟩).halfSpaces 4) := by
  norm_num [get_frustum, standard_frustum, Frustum.fromClipFromWorldCustomFar,
    Function.update_same, HalfSpace.new, Affine3.forward, Affine3.back, normalizeV,
    invLenQ, Affine3.idA, degenerateDest, Mat3.id3, Mat4.id4, Mat4.inverse, Mat4.mul,
    Mat4.mulVec4, Mat4.row, Affine3.computeMatrix, Vec4.compMul, Vec4.xyz,
    Vec3.dot, Vec3.smul_def, Vec3.neg_def, Vec3.add_def, Vec3.sub_def, Vec3.zero_def,
    Vec3.extend, Vec4.smul_def4, Vec4.add_def4, Vec4.sub_def4, HalfSpace.mk.injEq,
    Vec4.mk.injEq, Vec3.mk.injEq]

/-- C5 (amended) — when the destination's local-Z axis is zero, `get_frustum`
performs no degeneracy check: in default half-space mode it replaces the near
half-space with the degenerate half-space built from the zero normal and
distance `-1/100000` (and the source logs nothing on this path). -/
theorem degenerate_destination_near_plane (invLen : InvLen) (img : Nat) (pct dt : Affine3)
    (proj : Projection) (hz : dt.matrix3.zAxis = 0) :
    (get_frustum invLen ⟨img, .maskedImageHalfSpaceFrustum none false⟩ pct dt
        proj).halfSpaces 4 =
      HalfSpace.new invLen ((0 : Vec3).extend (-(0 + 0) - 1/100000)) := by
  have hfwd : Affine3.forward invLen dt = 0 := by
    simp only [Affine3.forward, Affine3.back, normalizeV, hz, Vec3.smul_zero_v,
      Vec3.neg_zero_v]
  simp only [get_frustum, Function.update_same, hfwd, Bool.false_and, if_neg,
    Bool.false_eq_true, not_false_eq_true, normalizeV, Vec3.smul_zero_v,
    Vec3.dot_zero_right]

/-- Witness for C5's amended theorem at the concrete degenerate destination. -/
theorem degenerate_destination_near_plane_witness :
    degenerateDest.matrix3.zAxis = 0 ∧
    (get_frustum invLenQ ⟨0, .maskedImageHalfSpaceFrustum none false⟩ Affine3.idA
        degenerateDest ⟨Mat4.id4, 10⟩).halfSpaces 4 =
      HalfSpace.new invLenQ ((0 : Vec3).extend (-(0 + 0) - 1/100000)) := by
  have hz : degenerateDest.matrix3.zAxis = 0 := by
    simp [degenerateDest, Vec3.zero_def]
  exact ⟨hz, degenerate_destination_near_plane invLenQ 0 Affine3.idA degenerateDest
    ⟨Mat4.id4, 10⟩ hz⟩

/-! ## Mirror involution (C8) -/

section MirrorLemmas

lemma Vec3.neg_neg_v (v : Vec3) : -(-v) = v := by
  obtain ⟨x, y, z⟩ := v
  simp [Vec3.neg_def]

lemma Vec3.add_sub_cancel_left_v (p w : Vec3) : (p + w) - p = w := by
  obtain ⟨a, b, c⟩ := p
  obtain ⟨d, e, f⟩ := w
  simp only [Vec3.add_def, Vec3.sub_def, Vec3.mk.injEq]
  refine ⟨by ring, by ring, by ring⟩

lemma Vec3.add_sub_cancel_v (p c : Vec3) : p + (c - p) = c := by
  obtain ⟨a, b, c'⟩ := p
  obtain ⟨d, e, f⟩ := c
  simp only [Vec3.add_def, Vec3.sub_def, Vec3.mk.injEq]
  refine ⟨by ring, by ring, by ring⟩

lemma Vec3.sub_zero_v (v : Vec3) : v - 0 = v := by
  obtain ⟨x, y, z⟩ := v
  simp [Vec3.sub_def, Vec3.zero_def]

lemma Vec3.zero_smul_v (v : Vec3) : (0 : ℚ) • v = 0 := by
  simp [Vec3.smul_def, Vec3.zero_def]

lemma Vec3.dot_neg_left (a b : Vec3) : (-a).dot b = -(a.dot b) := by
  simp only [Vec3.neg_def, Vec3.dot]; ring

lemma Vec3.dot_neg_right (a b : Vec3) : a.dot (-b) = -(a.dot b) := by
  simp only [Vec3.neg_def, Vec3.dot]; ring

/-- Lagrange's identity for the cross product. -/
lemma Vec3.cross_dot_self (a b : Vec3) :
    (a.cross b).dot (a.cross b) = a.dot a * b.dot b - a.dot b * a.dot b := by
  obtain ⟨ax, ay, az⟩ := a
  obtain ⟨bx, by', bz⟩ := b
  simp only [Vec3.cross, Vec3.dot]
  ring

/-- The vector triple product (BAC-CAB). -/
lemma Vec3.triple (a b c : Vec3) :
    a.cross (b.cross c) = (a.dot c) • b - (a.dot b) • c := by
  obtain ⟨ax, ay, az⟩ := a
  obtain ⟨bx, by', bz⟩ := b
  obtain ⟨cx, cy, cz⟩ := c
  simp only [Vec3.cross, Vec3.dot, Vec3.smul_def, Vec3.sub_def, Vec3.mk.injEq]
  refine ⟨by ring, by ring, by ring⟩

lemma Vec3.unit_ne_zero {v : Vec3} (h : v.dot v = 1) : v ≠ 0 := by
  intro h0
  rw [h0] at h
  simp [Vec3.dot, Vec3.zero_def] at h

/-- Reflecting twice across the same (non-degenerate) plane is the identity. -/
lemma mirror_vec_involution {n : Vec3} (hn : n.dot n ≠ 0) (v : Vec3) :
    mirror_vec (mirror_vec v n) n = v := by
  obtain ⟨nx, ny, nz⟩ := n
  obtain ⟨vx, vy, vz⟩ := v
  simp only [Vec3.dot] at hn
  simp only [mirror_vec, Vec3.projectOnto, Vec3.dot, Vec3.smul_def, Vec3.sub_def,
    Vec3.mk.injEq]
  refine ⟨?_, ?_, ?_⟩ <;> field_simp <;> ring

/-- Reflection across a plane preserves the dot product. -/
lemma mirror_vec_dot {n : Vec3} (hn : n.dot n ≠ 0) (a b : Vec3) :
    (mirror_vec a n).dot (mirror_vec b n) = a.dot b := by
  obtain ⟨nx, ny, nz⟩ := n
  obtain ⟨ax, ay, az⟩ := a
  obtain ⟨bx, by', bz⟩ := b
  simp only [Vec3.dot] at hn
  simp only [mirror_vec, Vec3.projectOnto, Vec3.dot, Vec3.smul_def, Vec3.sub_def]
  field_simp
  ring

/-- `look_to` on an orthonormal direction/up pair rebuilds exactly the frame
`(up × back, up, back)`. -/
lemma lookToRotation_ortho (invLen : InvLen) (hunit : ∀ v, v.dot v = 1 → invLen v = 1)
    {d u : Vec3} (hd : d.dot d = 1) (hu : u.dot u = 1) (hdu : d.dot u = 0) :
    lookToRotation invLen d u = ⟨u.cross (-d), u, -d⟩ := by
  have hdz := Vec3.unit_ne_zero hd
  have huz := Vec3.unit_ne_zero hu
  have hnd : normalizeV invLen d = d := by
    rw [normalizeV, hunit d hd, Vec3.one_smul_v]
  have hnu : normalizeV invLen u = u := by
    rw [normalizeV, hunit u hu, Vec3.one_smul_v]
  have hdd2 : (-d).dot (-d) = 1 := by
    rw [Vec3.dot_neg_left, Vec3.dot_neg_right, hd]
    ring
  have hud2 : u.dot (-d) = 0 := by
    rw [Vec3.dot_neg_right, Vec3.dot_comm u d, hdu]
    ring
  have hrr : (u.cross (-d)).dot (u.cross (-d)) = 1 := by
    rw [Vec3.cross_dot_self, hdd2, hud2, hu]
    ring
  have hrz := Vec3.unit_ne_zero hrr
  have hnr : normalizeV invLen (u.cross (-d)) = u.cross (-d) := by
    rw [normalizeV, hunit _ hrr, Vec3.one_smul_v]
  have hup : (-d).cross (u.cross (-d)) = u := by
    rw [Vec3.triple, Vec3.dot_neg_left, Vec3.dot_neg_right, hd, Vec3.dot_neg_left, hdu]
    simp only [neg_neg, neg_zero, Vec3.one_smul_v, Vec3.zero_smul_v, Vec3.sub_zero_v]
  simp only [lookToRotation, dir3New, tryNormalizeV, if_neg hdz, if_neg huz, if_neg hrz,
    Option.getD_some, hnd, hnu, hnr, hup]

/-- The property of the `Transform.rotation` field guaranteed by the Rust
type: a unit quaternion acts as a proper orthonormal (rotation) matrix. -/
def Mat3.IsRotationMatrix (m : Mat3) : Prop :=
  m.xAxis.dot m.xAxis = 1 ∧ m.yAxis.dot m.yAxis = 1 ∧ m.zAxis.dot m.zAxis = 1 ∧
  m.xAxis.dot m.yAxis = 0 ∧ m.yAxis.dot m.zAxis = 0 ∧ m.zAxis.dot m.xAxis = 0 ∧
  m.xAxis.cross m.yAxis = m.zAxis

instance (m : Mat3) : Decidable m.IsRotationMatrix := by
  unfold Mat3.IsRotationMatrix
  infer_instance

lemma Mat3.mulVec_Y (m : Mat3) : m.mulVec ⟨0, 1, 0⟩ = m.yAxis := by
  obtain ⟨⟨ax, ay, az⟩, ⟨bx, by', bz⟩, ⟨cx, cy, cz⟩⟩ := m
  simp only [Mat3.mulVec, Vec3.smul_def, Vec3.add_def, Vec3.mk.injEq]
  refine ⟨by ring, by ring, by ring⟩

end MirrorLemmas

/-- C8 — Mirror involution: applying `mirror_transform` twice with the same
(non-degenerate) plane restores the transform exactly, in exact arithmetic:
the translation is restored by the double reflection and the rotation rebuilt
by `look_to` from the twice-mirrored forward and up directions equals the
original rotation. -/
theorem mirror_transform_involution (invLen : InvLen)
    (hunit : ∀ v, v.dot v = 1 → invLen v = 1) (t : Transform) (p n : Vec3)
    (hn : n ≠ 0) (hrot : t.rotation.IsRotationMatrix) :
    mirror_transform invLen (mirror_transform invLen t p n) p n = t := by
  obtain ⟨hx1, hy1, hz1, hxy, hyz, hzx, hcross⟩ := hrot
  have hnn : n.dot n ≠ 0 := Vec3.dot_self_ne_zero hn
  -- the two mirrored frame vectors fed to the first look_to
  set d1 := mirror_vec (-(t.rotation.zAxis)) n with hd1
  set u1 := mirror_vec t.rotation.yAxis n with hu1
  have hd1d1 : d1.dot d1 = 1 := by
    rw [hd1, mirror_vec_dot hnn, Vec3.dot_neg_left, Vec3.dot_neg_right, hz1]
    ring
  have hu1u1 : u1.dot u1 = 1 := by
    rw [hu1, mirror_vec_dot hnn, hy1]
  have hd1u1 : d1.dot u1 = 0 := by
    rw [hd1, hu1, mirror_vec_dot hnn, Vec3.dot_neg_left, ← Vec3.dot_comm t.rotation.yAxis,
      hyz]
    ring
  -- the first application
  have hfwd : t.forward = -(t.rotation.zAxis) := Mat3.mulVec_negZ t.rotation
  have hupv : t.up = t.rotation.yAxis := Mat3.mulVec_Y t.rotation
  have hstep1 : mirror_transform invLen t p n =
      ⟨p + mirror_vec (t.translation - p) n, ⟨u1.cross (-d1), u1, -d1⟩, t.scale⟩ := by
    simp only [mirror_transform, Transform.lookTo, Transform.forward, Transform.up]
    rw [Mat3.mulVec_negZ, Mat3.mulVec_Y]
    rw [lookToRotation_ortho invLen hunit hd1d1 hu1u1 hd1u1]
  rw [hstep1]
  -- the second application: the mirrored directions fold back
  have hfwd2 : mirror_vec (-(-d1)) n = -(t.rotation.zAxis) := by
    rw [Vec3.neg_neg_v, hd1, mirror_vec_involution hnn]
  have hup2 : mirror_vec u1 n = t.rotation.yAxis := by
    rw [hu1, mirror_vec_involution hnn]
  have hdz : (-(t.rotation.zAxis)).dot (-(t.rotation.zAxis)) = 1 := by
    rw [Vec3.dot_neg_left, Vec3.dot_neg_right, hz1]
    ring
  have hduz : (-(t.rotation.zAxis)).dot t.rotation.yAxis = 0 := by
    rw [Vec3.dot_neg_left, ← Vec3.dot_comm t.rotation.yAxis, hyz]
    ring
  have hyzx : t.rotation.yAxis.cross t.rotation.zAxis = t.rotation.xAxis := by
    rw [← hcross, Vec3.triple, hy1, ← Vec3.dot_comm t.rotation.xAxis, hxy,
      Vec3.one_smul_v, Vec3.zero_smul_v, Vec3.sub_zero_v]
  have htr : p + mirror_vec (p + mirror_vec (t.translation - p) n - p) n = t.translation := by
    rw [Vec3.add_sub_cancel_left_v, mirror_vec_involution hnn, Vec3.add_sub_cancel_v]
  -- assemble
  simp only [mirror_transform, Transform.lookTo, Transform.forward, Transform.up]
  rw [Mat3.mulVec_negZ, Mat3.mulVec_Y]
  simp only [hfwd2, hup2]
  rw [lookToRotation_ortho invLen hunit hdz hy1 hduz]
  rw [Vec3.neg_neg_v, hyzx, htr]

/-- Witness for C8: a concrete transform, mirror point and (non-unit,
non-degenerate) mirror normal. -/
theorem mirror_transform_involution_witness :
    ((⟨2, 0, 0⟩ : Vec3) ≠ 0) ∧
    (Mat3.id3.IsRotationMatrix) ∧
    mirror_transform invLenQ
      (mirror_transform invLenQ ⟨⟨1, 2, 3⟩, Mat3.id3, ⟨1, 1, 1⟩⟩ ⟨0, 1, 0⟩ ⟨2, 0, 0⟩)
      ⟨0, 1, 0⟩ ⟨2, 0, 0⟩ = ⟨⟨1, 2, 3⟩, Mat3.id3, ⟨1, 1, 1⟩⟩ := by
  have hn : (⟨2, 0, 0⟩ : Vec3) ≠ 0 := by
    simp only [Vec3.zero_def, ne_eq, Vec3.mk.injEq]
    norm_num
  have hrot : Mat3.id3.IsRotationMatrix := by
    norm_num [Mat3.IsRotationMatrix, Mat3.id3, Vec3.dot, Vec3.cross, Vec3.mk.injEq]
  have hu : ∀ v : Vec3, v.dot v = 1 → invLenQ v = 1 := by
    intro v h
    simp [invLenQ, h]
  exact ⟨hn, hrot, mirror_transform_involution invLenQ hu _ _ _ hn hrot⟩

/-! ## Despawn strategies (`api.rs`) and the despawn helpers (`despawn.rs`) -/

/-- `PortalPartDespawnStrategy` from `api.rs`. -/
inductive PortalPartDespawnStrategy where
  | WarnThenDespawnWithChildren
  | DespawnWithChildren
  | WarnThenDespawnEntity
  | DespawnEntity
  | Leave
  | Panic
  deriving DecidableEq, Repr

namespace PortalPartDespawnStrategy

/-- `should_panic`. -/
def shouldPanic (s : PortalPartDespawnStrategy) : Bool := decide (s = Panic)

/-- `should_despawn`. -/
def shouldDespawn (s : PortalPartDespawnStrategy) : Bool := decide (s ≠ Leave ∧ s ≠ Panic)

/-- `should_despawn_children`. -/
def shouldDespawnChildren (s : PortalPartDespawnStrategy) : Bool :=
  decide (s = WarnThenDespawnWithChildren ∨ s = DespawnWithChildren)

/-- `should_warn`. -/
def shouldWarn (s : PortalPartDespawnStrategy) : Bool :=
  decide (s = WarnThenDespawnWithChildren ∨ s = WarnThenDespawnEntity)

end PortalPartDespawnStrategy

/-- `PortalPartsDespawnStrategy` from `api.rs`: one strategy per part kind. -/
structure PortalPartsDespawnStrategy where
  mainCamera : PortalPartDespawnStrategy
  portal : PortalPartDespawnStrategy
  destination : PortalPartDespawnStrategy
  portalCamera : PortalPartDespawnStrategy
  deriving DecidableEq, Repr

/-- The `DESPAWN_AND_WARN` constant (the default strategy). -/
def PortalPartsDespawnStrategy.despawnAndWarn : PortalPartsDespawnStrategy :=
  ⟨.Leave, .WarnThenDespawnEntity, .WarnThenDespawnEntity, .WarnThenDespawnEntity⟩

/-- `PortalParts` from `create.rs`: the four entity ids of one portal unit. -/
structure PortalParts where
  mainCamera : Nat
  portal : Nat
  destination : Nat
  portalCamera : Nat
  deriving DecidableEq, Repr

/-- The effect of a deferred `Commands` operation issued by the despawn
helpers: a logged warning, a `despawn_related::<Children>`, or a `despawn`. -/
inductive DespawnAction where
  | warn (entityType : String)
  | despawnChildrenOf (entity : Nat)
  | despawn (entity : Nat)
  deriving DecidableEq, Repr

/-- `despawn_portal_part` from `despawn.rs`.  `commands.get_entity(e)` succeeds
when the entity is alive; `panic!` is the `Except.error` case.  The logged
message text is not modelled, only that a warning is emitted. -/
def despawn_portal_part (alive : List Nat) (entity : Nat)
    (strategy : PortalPartDespawnStrategy) (entityType : String) :
    Except String (List DespawnAction) :=
  if strategy.shouldDespawn then
    if alive.contains entity then
      .ok ((if strategy.shouldWarn then [.warn entityType] else []) ++
        (if strategy.shouldDespawnChildren then [.despawnChildrenOf entity] else []) ++
        [.despawn entity])
    else
      .ok []
  else if strategy.shouldPanic then
    .error entityType
  else
    .ok []

/-- `despawn_portal_parts_with_message` from `despawn.rs`: despawn the four
parts in source order (portal camera, destination, portal, main camera). -/
def despawn_portal_parts_with_message (alive : List Nat) (parts : PortalParts)
    (strategy : PortalPartsDespawnStrategy) : Except String (List DespawnAction) := do
  let a1 ← despawn_portal_part alive parts.portalCamera strategy.portalCamera "Portal Camera"
  let a2 ← despawn_portal_part alive parts.destination strategy.destination "Destination"
  let a3 ← despawn_portal_part alive parts.portal strategy.portal "Portal"
  let a4 ← despawn_portal_part alive parts.mainCamera strategy.mainCamera "Main Camera"
  return a1 ++ a2 ++ a3 ++ a4

/-- `deal_with_part_query_error` from `despawn.rs`.  The `QueryEntityError`
argument of the source only selects the text of the log message, which is not
modelled; the despawn behaviour is `despawn_portal_parts_with_message`. -/
def deal_with_part_query_error (alive : List Nat) (parts : PortalParts)
    (strategy : PortalPartsDespawnStrategy) : Except String (List DespawnAction) :=
  despawn_portal_parts_with_message alive parts strategy

/-! ## Render-target sizes and the resize step (`update.rs`) -/

/-- `glam::UVec2` (pixel sizes). -/
structure UVec2 where
  x : Nat
  y : Nat
  deriving DecidableEq, Repr

/-- `wgpu` `Extent3d`; `..Extent3d::default()` sets `depth_or_array_layers = 1`. -/
structure Extent3d where
  width : Nat
  height : Nat
  depthOrArrayLayers : Nat
  deriving DecidableEq, Repr

/-- `bevy` `Image`, through the fields the crate uses: the texture size.
(`Image::resize` also reallocates the pixel data, which is not modelled.) -/
structure Image where
  textureSize : Extent3d
  deriving DecidableEq, Repr

/-- `Image::size()`. -/
def Image.size (img : Image) : UVec2 := ⟨img.textureSize.width, img.textureSize.height⟩

/-- `Image::resize` together with the preceding
`texture_descriptor.size = size` assignment (both set the same field). -/
def Image.resize (img : Image) (size : Extent3d) : Image := { img with textureSize := size }

/-- `bevy` `WindowRef`. -/
inductive WindowRef where
  | primary
  | entity (e : Nat)
  deriving DecidableEq, Repr

/-- `bevy` `RenderTarget`, with handles as ids. -/
inductive RenderTarget where
  | window (windowRef : WindowRef)
  | image (handle : Nat)
  | textureView (handle : Nat)
  deriving DecidableEq, Repr

/-- A `bevy` `Window`, through `physical_width`/`physical_height`. -/
structure Window where
  physicalWidth : Nat
  physicalHeight : Nat
  deriving DecidableEq, Repr

/-- A camera `Viewport`, through `physical_size`. -/
structure Viewport where
  physicalSize : UVec2
  deriving DecidableEq, Repr

/-- A `bevy` `Camera`, through the fields `get_viewport_size` reads. -/
structure Camera where
  viewport : Option Viewport
  target : RenderTarget
  deriving DecidableEq, Repr

/-- A `ManualTextureView`, through its `size`. -/
structure ManualTextureView where
  size : UVec2
  deriving DecidableEq, Repr

/-- `Query::single().ok()`: some result exactly when the query matches
exactly one entity. -/
def singleOk {α : Type} : List α → Option α
  | [a] => some a
  | _ => none

/-- The `PortalImageSizeParams` system param: image assets, the primary
window query, the window query and the manual texture views. -/
structure PortalImageSizeParams where
  images : List (Nat × Image)
  primaryWindows : List Window
  windows : List (Nat × Window)
  textureViews : List (Nat × ManualTextureView)
  deriving DecidableEq, Repr

/-- `get_viewport_size` from `update.rs`. -/
def get_viewport_size (main_camera : Camera) (p : PortalImageSizeParams) : Option UVec2 :=
  match main_camera.viewport with
  | some viewport => some viewport.physicalSize
  | none =>
    match main_camera.target with
    | .window .primary =>
        (singleOk p.primaryWindows).map fun w => ⟨w.physicalWidth, w.physicalHeight⟩
    | .window (.entity e) =>
        (p.windows.lookup e).map fun w => ⟨w.physicalWidth, w.physicalHeight⟩
    | .image handle => (p.images.lookup handle).map Image.size
    | .textureView handle => (p.textureViews.lookup handle).map ManualTextureView.size

/-- Replace the value stored under a key in an association list (the effect of
mutating through `Assets::get_mut`). -/
def setAssoc {α : Type} : List (Nat × α) → Nat → α → List (Nat × α)
  | [], _, _ => []
  | (k, a) :: rest, key, v =>
      if k == key then (key, v) :: rest else (k, a) :: setAssoc rest key v

/-- `resize_image_if_needed` from `update.rs`.  The initial
`images.get(..).unwrap()` is a `panic!` (`Except.error`) when the portal image
asset is missing; a failed viewport lookup logs and returns `false`; a missing
image or material at the mutation point logs and skips the mutation but still
returns the `resize` flag. -/
def resize_image_if_needed (portal_camera : PortalCamera) (main_camera : Camera)
    (size_params : PortalImageSizeParams) (portal_material : Nat)
    (materials : List Nat) : Except String (Bool × PortalImageSizeParams) :=
  match size_params.images.lookup portal_camera.image with
  | none => .error "unwrap on None: portal image not found"
  | some portal_image =>
    let portal_image_size := portal_image.size
    match get_viewport_size main_camera size_params with
    | none => .ok (false, size_params)
    | some main_camera_viewport_size =>
      let resize := portal_image_size.x != main_camera_viewport_size.x ||
        portal_image_size.y != main_camera_viewport_size.y
      if resize then
        let size : Extent3d :=
          ⟨main_camera_viewport_size.x, main_camera_viewport_size.y, 1⟩
        match size_params.images.lookup portal_camera.image,
            materials.contains portal_material with
        | some portal_image2, true =>
            .ok (resize,
              { size_params with
                images := setAssoc size_params.images portal_camera.image
                  (portal_image2.resize size) })
        | _, _ => .ok (resize, size_params)
      else
        .ok (resize, size_params)

/-! ## The per-frame update system (`update.rs`) -/

/-- The components the `portal_cameras` query of `update_portal_cameras`
extracts for one portal camera entity, plus the `set_changed` flag on its
projection. -/
structure PortalCameraItem where
  portalCamera : PortalCamera
  transform : Transform
  globalTransform : Affine3
  projection : Projection
  projectionChanged : Bool
  deriving DecidableEq, Repr

/-- The components of the `main_camera_query`.  `gtChanged` is
`Ref::is_changed` on the global transform. -/
structure MainCameraItem where
  globalTransform : Affine3
  gtChanged : Bool
  camera : Camera
  deriving DecidableEq, Repr

/-- The components of the `portal_query` (global transform and the
`MeshMaterial3d<PortalMaterial>` handle). -/
structure PortalItem where
  globalTransform : Affine3
  gtChanged : Bool
  material : Nat
  deriving DecidableEq, Repr

/-- The components of the `destination_query` (global transform and the
`PortalDestination::mirror` field, with `Dir3` as a plain vector). -/
structure DestinationItem where
  globalTransform : Affine3
  gtChanged : Bool
  mirror : Option (Vec3 × Vec3)
  deriving DecidableEq, Repr

/-- The world state read and written by `update_portal_cameras`: the four
component queries, the shared asset tables, the set of live entities (for
`commands.get_entity`) and the deferred despawn commands. -/
structure WorldState where
  portalCameras : List (Nat × PortalCameraItem)
  mainCameras : List (Nat × MainCameraItem)
  portals : List (Nat × PortalItem)
  destinations : List (Nat × DestinationItem)
  sizeParams : PortalImageSizeParams
  materials : List Nat
  alive : List Nat
  commands : List DespawnAction
  deriving DecidableEq, Repr

/-- The body of `update_portal_cameras`' loop for a single `PortalParts`
unit: resolve the four parts (a failed resolution applies the despawn policy
and stops processing of this unit), resize the portal image, flag the
projection as changed if resized, and recompute the portal camera's transform
when any of the three poses changed. -/
def update_portal_cameras_unit (invLen : InvLen) (strategy : PortalPartsDespawnStrategy)
    (s : WorldState) (parts : PortalParts) : Except String WorldState :=
  match s.portalCameras.lookup parts.portalCamera with
  | none => do
      let acts ← deal_with_part_query_error s.alive parts strategy
      return { s with commands := s.commands ++ acts }
  | some pcItem =>
    match s.mainCameras.lookup parts.mainCamera with
    | none => do
        let acts ← deal_with_part_query_error s.alive parts strategy
        return { s with commands := s.commands ++ acts }
    | some mcItem =>
      match s.portals.lookup parts.portal with
      | none => do
          let acts ← deal_with_part_query_error s.alive parts strategy
          return { s with commands := s.commands ++ acts }
      | some pItem =>
        match s.destinations.lookup parts.destination with
        | none => do
            let acts ← deal_with_part_query_error s.alive parts strategy
            return { s with commands := s.commands ++ acts }
        | some dItem => do
            let res ← resize_image_if_needed pcItem.portalCamera mcItem.camera
              s.sizeParams pItem.material s.materials
            let portal_image_resized := res.1
            let pcItem1 :=
              if portal_image_resized then { pcItem with projectionChanged := true }
              else pcItem
            let should_update_transform :=
              pItem.gtChanged || dItem.gtChanged || mcItem.gtChanged
            let pcItem2 :=
              if should_update_transform then
                let newGT := get_portal_camera_transform invLen mcItem.globalTransform
                  pItem.globalTransform dItem.globalTransform dItem.mirror
                { pcItem1 with
                  transform := computeTransform invLen newGT,
                  globalTransform := newGT }
              else pcItem1
            return { s with
              sizeParams := res.2,
              portalCameras := setAssoc s.portalCameras parts.portalCamera pcItem2 }

/-- `update_portal_cameras` from `update.rs`: iterate the loop body over
every `(entity, PortalParts)` pair of the `portal_parts_query`. -/
def update_portal_cameras (invLen : InvLen) (strategy : PortalPartsDespawnStrategy)
    (s : WorldState) : List (Nat × PortalParts) → Except String WorldState
  | [] => .ok s
  | (_, parts) :: rest => do
      let s1 ← update_portal_cameras_unit invLen strategy s parts
      update_portal_cameras invLen strategy s1 rest

section AssocLemmas

lemma lookup_setAssoc_self {α : Type} (m : List (Nat × α)) (k : Nat) (v w : α)
    (h : m.lookup k = some w) : (setAssoc m k v).lookup k = some v := by
  induction m with
  | nil => simp [List.lookup] at h
  | cons p rest ih =>
      obtain ⟨pk, pv⟩ := p
      by_cases hk : pk = k
      · subst hk
        simp [setAssoc, List.lookup]
      · have hb1 : (pk == k) = false := beq_eq_false_iff_ne.mpr hk
        have hb2 : (k == pk) = false := beq_eq_false_iff_ne.mpr fun he => hk he.symm
        simp only [List.lookup, hb2] at h
        simp only [setAssoc, hb1, Bool.false_eq_true, if_false, List.lookup, hb2]
        exact ih h

lemma lookup_setAssoc_ne {α : Type} (m : List (Nat × α)) (k k2 : Nat) (v : α)
    (h : k ≠ k2) : (setAssoc m k v).lookup k2 = m.lookup k2 := by
  induction m with
  | nil => simp [setAssoc]
  | cons p rest ih =>
      obtain ⟨pk, pv⟩ := p
      by_cases hk : pk = k
      · subst hk
        have hb : (k2 == pk) = false := beq_eq_false_iff_ne.mpr fun he => h he.symm
        simp [setAssoc, List.lookup, hb]
      · have hb1 : (pk == k) = false := beq_eq_false_iff_ne.mpr hk
        simp only [setAssoc, hb1, Bool.false_eq_true, if_false, List.lookup]
        by_cases he : k2 = pk
        · have hb2 : (k2 == pk) = true := beq_iff_eq.mpr he
          simp [hb2]
        · have hb2 : (k2 == pk) = false := beq_eq_false_iff_ne.mpr he
          simp only [hb2]
          exact ih

lemma setAssoc_lookup_eq_self {α : Type} (m : List (Nat × α)) (k : Nat) (v : α)
    (h : m.lookup k = some v) : setAssoc m k v = m := by
  induction m with
  | nil => simp [List.lookup] at h
  | cons p rest ih =>
      obtain ⟨pk, pv⟩ := p
      by_cases hk : pk = k
      · subst hk
        simp only [List.lookup, beq_self_eq_true] at h
        simp only [setAssoc, beq_self_eq_true, if_true]
        cases h
        rfl
      · have hb1 : (pk == k) = false := beq_eq_false_iff_ne.mpr hk
        have hb2 : (k == pk) = false := beq_eq_false_iff_ne.mpr fun he => hk he.symm
        simp only [List.lookup, hb2] at h
        simp only [setAssoc, hb1, Bool.false_eq_true, if_false, List.cons.injEq, true_and]
        exact ih h

lemma UVec2.eta (v : UVec2) : (⟨v.x, v.y⟩ : UVec2) = v := by
  cases v
  rfl

end AssocLemmas

section DespawnLemmas

/-- The despawn actions of one part for a non-panicking strategy (helper for
stating the result of `despawn_portal_part`). -/
def despawnActions (alive : List Nat) (entity : Nat)
    (strategy : PortalPartDespawnStrategy) (entityType : String) : List DespawnAction :=
  if strategy.shouldDespawn && alive.contains entity then
    (if strategy.shouldWarn then [.warn entityType] else []) ++
      (if strategy.shouldDespawnChildren then [.despawnChildrenOf entity] else []) ++
      [.despawn entity]
  else []

/-- A non-`Panic` part strategy always succeeds, producing the despawn
actions determined by the strategy flags and liveness. -/
lemma despawn_portal_part_eq_ok (alive : List Nat) (e : Nat)
    {st : PortalPartDespawnStrategy} (h : st ≠ .Panic) (t : String) :
    despawn_portal_part alive e st t = .ok (despawnActions alive e st t) := by
  have hp : st.shouldPanic = false := by
    simp only [PortalPartDespawnStrategy.shouldPanic, decide_eq_false_iff_not]
    exact h
  unfold despawn_portal_part despawnActions
  cases hd : st.shouldDespawn <;> cases hc : alive.contains e <;>
    simp [hd, hc, hp]

/-- With no `Panic` strategy among the four parts, the despawn policy of a
failed resolution always succeeds, producing the four parts' despawn actions
in source order. -/
lemma deal_with_part_query_error_eq (alive : List Nat) (parts : PortalParts)
    (strategy : PortalPartsDespawnStrategy)
    (h1 : strategy.portalCamera ≠ .Panic) (h2 : strategy.destination ≠ .Panic)
    (h3 : strategy.portal ≠ .Panic) (h4 : strategy.mainCamera ≠ .Panic) :
    deal_with_part_query_error alive parts strategy = .ok (
      despawnActions alive parts.portalCamera strategy.portalCamera "Portal Camera" ++
        despawnActions alive parts.destination strategy.destination "Destination" ++
        despawnActions alive parts.portal strategy.portal "Portal" ++
        despawnActions alive parts.mainCamera strategy.mainCamera "Main Camera") := by
  simp only [deal_with_part_query_error, despawn_portal_parts_with_message,
    despawn_portal_part_eq_ok alive parts.portalCamera h1,
    despawn_portal_part_eq_ok alive parts.destination h2,
    despawn_portal_part_eq_ok alive parts.portal h3,
    despawn_portal_part_eq_ok alive parts.mainCamera h4,
    bind, Except.bind, pure, Except.pure]

end DespawnLemmas

/-- C6 — Missing-part isolation: if resolving any of the four parts of a
`PortalParts` unit fails and no per-part strategy is `Panic`, then the
despawn policy is applied to that unit via `deal_with_part_query_error`, the
unit's processing stops (only the deferred commands change), the system does
not panic, and the iteration continues over every remaining unit. -/
theorem update_isolates_missing_parts (invLen : InvLen)
    (strategy : PortalPartsDespawnStrategy) (s : WorldState) (pe : Nat)
    (parts : PortalParts) (rest : List (Nat × PortalParts))
    (hfail : s.portalCameras.lookup parts.portalCamera = none ∨
      s.mainCameras.lookup parts.mainCamera = none ∨
      s.portals.lookup parts.portal = none ∨
      s.destinations.lookup parts.destination = none)
    (hnp : strategy.portalCamera ≠ .Panic ∧ strategy.destination ≠ .Panic ∧
      strategy.portal ≠ .Panic ∧ strategy.mainCamera ≠ .Panic) :
    ∃ acts, deal_with_part_query_error s.alive parts strategy = .ok acts ∧
      update_portal_cameras_unit invLen strategy s parts =
        .ok { s with commands := s.commands ++ acts } ∧
      update_portal_cameras invLen strategy s ((pe, parts) :: rest) =
        update_portal_cameras invLen strategy { s with commands := s.commands ++ acts }
          rest := by
  obtain ⟨h1, h2, h3, h4⟩ := hnp
  have hacts := deal_with_part_query_error_eq s.alive parts strategy h1 h2 h3 h4
  have hunit : update_portal_cameras_unit invLen strategy s parts =
      .ok { s with commands := s.commands ++
        (despawnActions s.alive parts.portalCamera strategy.portalCamera "Portal Camera" ++
          despawnActions s.alive parts.destination strategy.destination "Destination" ++
          despawnActions s.alive parts.portal strategy.portal "Portal" ++
          despawnActions s.alive parts.mainCamera strategy.mainCamera "Main Camera") } := by
    rcases hfail with hf | hf | hf | hf
    · simp only [update_portal_cameras_unit, hf, hacts, bind, Except.bind, pure, Except.pure]
    · cases hpc : s.portalCameras.lookup parts.portalCamera with
      | none =>
          simp only [update_portal_cameras_unit, hpc, hacts, bind, Except.bind, pure,
            Except.pure]
      | some pcItem =>
          simp only [update_portal_cameras_unit, hpc, hf, hacts, bind, Except.bind, pure,
            Except.pure]
    · cases hpc : s.portalCameras.lookup parts.portalCamera with
      | none =>
          simp only [update_portal_cameras_unit, hpc, hacts, bind, Except.bind, pure,
            Except.pure]
      | some pcItem =>
          cases hmc : s.mainCameras.lookup parts.mainCamera with
          | none =>
              simp only [update_portal_cameras_unit, hpc, hmc, hacts, bind, Except.bind,
                pure, Except.pure]
          | some mcItem =>
              simp only [update_portal_cameras_unit, hpc, hmc, hf, hacts, bind, Except.bind,
                pure, Except.pure]
    · cases hpc : s.portalCameras.lookup parts.portalCamera with
      | none =>
          simp only [update_portal_cameras_unit, hpc, hacts, bind, Except.bind, pure,
            Except.pure]
      | some pcItem =>
          cases hmc : s.mainCameras.lookup parts.mainCamera with
          | none =>
              simp only [update_portal_cameras_unit, hpc, hmc, hacts, bind, Except.bind,
                pure, Except.pure]
          | some mcItem =>
              cases hp2 : s.portals.lookup parts.portal with
              | none =>
                  simp only [update_portal_cameras_unit, hpc, hmc, hp2, hacts, bind,
                    Except.bind, pure, Except.pure]
              | some pItem =>
                  simp only [update_portal_cameras_unit, hpc, hmc, hp2, hf, hacts, bind,
                    Except.bind, pure, Except.pure]
  refine ⟨_, hacts, hunit, ?_⟩
  simp only [update_portal_cameras, hunit, bind, Except.bind]

/-- Witness for C6: a unit whose portal camera does not resolve, under the
default despawn-and-warn strategy, in a world with one other (empty) unit
list entry to continue over. -/
theorem update_isolates_missing_parts_witness :
    ∃ acts,
      deal_with_part_query_error [2, 3] ⟨1, 2, 3, 4⟩
        PortalPartsDespawnStrategy.despawnAndWarn = .ok acts ∧
      update_portal_cameras_unit invLenQ PortalPartsDespawnStrategy.despawnAndWarn
        ⟨[], [], [], [], ⟨[], [], [], []⟩, [], [2, 3], []⟩ ⟨1, 2, 3, 4⟩ =
        .ok { (⟨[], [], [], [], ⟨[], [], [], []⟩, [], [2, 3], []⟩ : WorldState) with
          commands := ([] : List DespawnAction) ++ acts } ∧
      update_portal_cameras invLenQ PortalPartsDespawnStrategy.despawnAndWarn
        ⟨[], [], [], [], ⟨[], [], [], []⟩, [], [2, 3], []⟩ [(9, ⟨1, 2, 3, 4⟩)] =
        update_portal_cameras invLenQ PortalPartsDespawnStrategy.despawnAndWarn
          { (⟨[], [], [], [], ⟨[], [], [], []⟩, [], [2, 3], []⟩ : WorldState) with
            commands := ([] : List DespawnAction) ++ acts } [] := by
  exact update_isolates_missing_parts invLenQ PortalPartsDespawnStrategy.despawnAndWarn
    ⟨[], [], [], [], ⟨[], [], [], []⟩, [], [2, 3], []⟩ 9 ⟨1, 2, 3, 4⟩ []
    (Or.inl rfl) (by refine ⟨?_, ?_, ?_, ?_⟩ <;> decide)

/-- C7 — evaluation at the failing input: when the portal camera's image
asset cannot be located, `resize_image_if_needed` hits the initial
`images.get(&portal_camera.image).unwrap()` and panics instead of logging a
warning and proceeding with stale dimensions. -/
theorem resize_missing_image_panics :
    resize_image_if_needed ⟨5, .maskedImageNoFrustum⟩
      ⟨some ⟨⟨4, 3⟩⟩, .window .primary⟩ ⟨[], [], [], []⟩ 7 [7] =
      .error "unwrap on None: portal image not found" := rfl

/-- C9 (counterexample) — when the portal material asset is missing, the
resize is skipped but the `resize` flag stays `true`: invoked twice with an
unchanged viewport (the state is unchanged after the first call), the second
invocation still returns `true`, not `false` as the claim states. -/
theorem resize_idempotence_counterexample :
    resize_image_if_needed ⟨0, .maskedImageNoFrustum⟩ ⟨some ⟨⟨2, 2⟩⟩, .window .primary⟩
        ⟨[(0, ⟨⟨1, 1, 1⟩⟩)], [], [], []⟩ 7 [] =
      .ok (true, ⟨[(0, ⟨⟨1, 1, 1⟩⟩)], [], [], []⟩) ∧
    ∀ ps, resize_image_if_needed ⟨0, .maskedImageNoFrustum⟩ ⟨some ⟨⟨2, 2⟩⟩, .window .primary⟩
        ⟨[(0, ⟨⟨1, 1, 1⟩⟩)], [], [], []⟩ 7 [] ≠ .ok (false, ps) := by
  have h0 : resize_image_if_needed ⟨0, .maskedImageNoFrustum⟩
      ⟨some ⟨⟨2, 2⟩⟩, .window .primary⟩ ⟨[(0, ⟨⟨1, 1, 1⟩⟩)], [], [], []⟩ 7 [] =
      .ok (true, ⟨[(0, ⟨⟨1, 1, 1⟩⟩)], [], [], []⟩) := rfl
  refine ⟨h0, ?_⟩
  intro ps h
  rw [h0] at h
  simp at h

/-- C9 (amended) — Resize idempotence given the resize can actually be
performed: if the portal image, the portal material and a viewport size are
all found, then after one invocation a second invocation with unchanged
inputs performs no image mutation and returns `false`. -/
theorem resize_idempotence (pc : PortalCamera) (cam : Camera)
    (params : PortalImageSizeParams) (portalMat : Nat) (materials : List Nat)
    (img : Image) (v : UVec2)
    (himg : params.images.lookup pc.image = some img)
    (hmat : materials.contains portalMat = true)
    (hvs : get_viewport_size cam params = some v) :
    ∃ b params2,
      resize_image_if_needed pc cam params portalMat materials = .ok (b, params2) ∧
      resize_image_if_needed pc cam params2 portalMat materials = .ok (false, params2) := by
  cases hrsz : (img.size.x != v.x || img.size.y != v.y) with
  | false =>
      refine ⟨false, params, ?_, ?_⟩ <;>
        simp only [resize_image_if_needed, himg, hvs, hrsz, Bool.false_eq_true, if_false]
  | true =>
      set params2 : PortalImageSizeParams :=
        { params with
          images := setAssoc params.images pc.image (img.resize ⟨v.x, v.y, 1⟩) } with hp2
      have hlk2 : params2.images.lookup pc.image = some (img.resize ⟨v.x, v.y, 1⟩) :=
        lookup_setAssoc_self params.images pc.image _ img himg
      have hvs2 : get_viewport_size cam params2 = some v := by
        cases hv : cam.viewport with
        | some vp =>
            simp only [get_viewport_size, hv] at hvs ⊢
            exact hvs
        | none =>
            cases ht : cam.target with
            | window wr =>
                cases wr <;> simp only [get_viewport_size, hv, ht] at hvs ⊢ <;> exact hvs
            | image handle =>
                by_cases hh : handle = pc.image
                · exfalso
                  subst hh
                  simp only [get_viewport_size, hv, ht, himg, Option.map_some] at hvs
                  have hsz : img.size = v := by
                    injection hvs
                  rw [hsz] at hrsz
                  simp at hrsz
                · simp only [get_viewport_size, hv, ht] at hvs ⊢
                  rw [lookup_setAssoc_ne params.images pc.image handle _
                    fun he => hh he.symm]
                  exact hvs
            | textureView handle =>
                simp only [get_viewport_size, hv, ht] at hvs ⊢
                exact hvs
      have hsz2 : (img.resize ⟨v.x, v.y, 1⟩).size = v := by
        simp only [Image.resize, Image.size]
      refine ⟨true, params2, ?_, ?_⟩
      · simp only [resize_image_if_needed, himg, hvs, hrsz, if_true, hmat]
      · simp only [resize_image_if_needed, hlk2, hvs2, hsz2, bne_self_eq_false,
          Bool.or_self, Bool.false_eq_true, if_false]

/-- Witness for C9's amended theorem: a portal image of size 1×1, a present
material, and a 2×2 viewport; the first call resizes, the second is a no-op
returning `false`. -/
theorem resize_idempotence_witness :
    (PortalImageSizeParams.mk [(0, ⟨⟨1, 1, 1⟩⟩)] [] [] []).images.lookup 0 =
      some ⟨⟨1, 1, 1⟩⟩ ∧
    ([7] : List Nat).contains 7 = true ∧
    get_viewport_size ⟨some ⟨⟨2, 2⟩⟩, .window .primary⟩
      ⟨[(0, ⟨⟨1, 1, 1⟩⟩)], [], [], []⟩ = some ⟨2, 2⟩ ∧
    ∃ b params2,
      resize_image_if_needed ⟨0, .maskedImageNoFrustum⟩ ⟨some ⟨⟨2, 2⟩⟩, .window .primary⟩
        ⟨[(0, ⟨⟨1, 1, 1⟩⟩)], [], [], []⟩ 7 [7] = .ok (b, params2) ∧
      resize_image_if_needed ⟨0, .maskedImageNoFrustum⟩ ⟨some ⟨⟨2, 2⟩⟩, .window .primary⟩
        params2 7 [7] = .ok (false, params2) :=
  ⟨rfl, rfl, rfl,
    resize_idempotence ⟨0, .maskedImageNoFrustum⟩ ⟨some ⟨⟨2, 2⟩⟩, .window .primary⟩
      ⟨[(0, ⟨⟨1, 1, 1⟩⟩)], [], [], []⟩ 7 [7] ⟨⟨1, 1, 1⟩⟩ ⟨2, 2⟩ rfl rfl rfl⟩

/-- C10 — Indeterminable viewport size is a silent no-op: when the main
camera has no explicit viewport and its render target cannot be resolved
(primary/referenced window, image, or manual texture view lookup fails),
`get_viewport_size` returns `none`; `resize_image_if_needed` (whose own
portal image is present) then mutates nothing and returns `false`; and — the
three poses being unchanged — the unit's update leaves the world state
entirely unchanged, flagging no projection change and triggering no frustum
refresh for that portal this tick. -/
theorem unresolved_viewport_silent_noop (invLen : InvLen)
    (strategy : PortalPartsDespawnStrategy) (s : WorldState) (parts : PortalParts)
    (pcItem : PortalCameraItem) (mcItem : MainCameraItem) (pItem : PortalItem)
    (dItem : DestinationItem) (img : Image)
    (hpc : s.portalCameras.lookup parts.portalCamera = some pcItem)
    (hmc : s.mainCameras.lookup parts.mainCamera = some mcItem)
    (hp2 : s.portals.lookup parts.portal = some pItem)
    (hd2 : s.destinations.lookup parts.destination = some dItem)
    (himg : s.sizeParams.images.lookup pcItem.portalCamera.image = some img)
    (hvp : mcItem.camera.viewport = none)
    (htgt : match mcItem.camera.target with
      | .window .primary => singleOk s.sizeParams.primaryWindows = none
      | .window (.entity e) => s.sizeParams.windows.lookup e = none
      | .image handle => s.sizeParams.images.lookup handle = none
      | .textureView handle => s.sizeParams.textureViews.lookup handle = none)
    (hflags : pItem.gtChanged = false ∧ dItem.gtChanged = false ∧
      mcItem.gtChanged = false) :
    get_viewport_size mcItem.camera s.sizeParams = none ∧
    resize_image_if_needed pcItem.portalCamera mcItem.camera s.sizeParams pItem.material
      s.materials = .ok (false, s.sizeParams) ∧
    update_portal_cameras_unit invLen strategy s parts = .ok s := by
  have hgvs : get_viewport_size mcItem.camera s.sizeParams = none := by
    cases ht : mcItem.camera.target with
    | window wr =>
        cases wr with
        | primary =>
            simp only [ht] at htgt
            simp [get_viewport_size, hvp, ht, htgt]
        | entity e =>
            simp only [ht] at htgt
            simp [get_viewport_size, hvp, ht, htgt]
    | image handle =>
        simp only [ht] at htgt
        simp [get_viewport_size, hvp, ht, htgt]
    | textureView handle =>
        simp only [ht] at htgt
        simp [get_viewport_size, hvp, ht, htgt]
  have hresize : resize_image_if_needed pcItem.portalCamera mcItem.camera s.sizeParams
      pItem.material s.materials = .ok (false, s.sizeParams) := by
    simp only [resize_image_if_needed, himg, hgvs]
  refine ⟨hgvs, hresize, ?_⟩
  simp only [update_portal_cameras_unit, hpc, hmc, hp2, hd2, hresize, bind, Except.bind,
    pure, Except.pure, hflags.1, hflags.2.1, hflags.2.2, Bool.or_self, Bool.or_false,
    Bool.false_eq_true, if_false]
  rw [setAssoc_lookup_eq_self s.portalCameras parts.portalCamera pcItem hpc]

/-- The world of C10's witness: one complete portal unit whose main camera
targets the primary window while no primary window exists. -/
def c10PcItem : PortalCameraItem :=
  ⟨⟨9, .maskedImageNoFrustum⟩, ⟨⟨0, 0, 0⟩, Mat3.id3, ⟨1, 1, 1⟩⟩, Affine3.idA,
   ⟨Mat4.id4, 10⟩, false⟩

def c10McItem : MainCameraItem := ⟨Affine3.idA, false, ⟨none, .window .primary⟩⟩

def c10State : WorldState :=
  ⟨[(4, c10PcItem)], [(1, c10McItem)], [(2, ⟨Affine3.idA, false, 7⟩)],
   [(3, ⟨Affine3.idA, false, none⟩)], ⟨[(9, ⟨⟨1, 1, 1⟩⟩)], [], [], []⟩, [7],
   [1, 2, 3, 4], []⟩

/-- Witness for C10 at the concrete world `c10State`. -/
theorem unresolved_viewport_silent_noop_witness :
    get_viewport_size c10McItem.camera c10State.sizeParams = none ∧
    resize_image_if_needed c10PcItem.portalCamera c10McItem.camera c10State.sizeParams
      7 c10State.materials = .ok (false, c10State.sizeParams) ∧
    update_portal_cameras_unit invLenQ PortalPartsDespawnStrategy.despawnAndWarn c10State
      ⟨1, 2, 3, 4⟩ = .ok c10State :=
  unresolved_viewport_silent_noop invLenQ PortalPartsDespawnStrategy.despawnAndWarn
    c10State ⟨1, 2, 3, 4⟩ c10PcItem c10McItem ⟨Affine3.idA, false, 7⟩
    ⟨Affine3.idA, false, none⟩ ⟨⟨1, 1, 1⟩⟩ rfl rfl rfl rfl rfl rfl rfl ⟨rfl, rfl, rfl⟩

end BasicPortals
